import Mathlib

/-!
Shallow embedding of the Greek courier tracker core
(`src/app/api/track/route.ts`): carrier registry, carrier detection,
status translation/classification, the ELTA and Box Now fetchers, the
batch orchestrator (POST) and the single-number handler (GET), together
with theorems about their behavior.

Network and JSON inputs are modelled as explicit data passed to the
functions: a fetch either yields parsed response data or a thrown
JavaScript value.  JavaScript strings are modelled as Lean `String`
(lists of characters); `toUpperCase`/`toLowerCase` are modelled for
ASCII and unaccented Greek letters, other code points unchanged.
-/

/-- Character test for the JavaScript whitespace set trimmed by `trim()`. -/
def jsIsWhitespace (c : Char) : Bool :=
  ['\u0009', '\u000a', '\u000b', '\u000c', '\u000d', '\u0020', '\u00a0',
   '\u1680', '\u2000', '\u2001', '\u2002', '\u2003', '\u2004', '\u2005',
   '\u2006', '\u2007', '\u2008', '\u2009', '\u200a', '\u2028', '\u2029',
   '\u202f', '\u205f', '\u3000', '\ufeff'].contains c

/-- Models JavaScript `String.prototype.trim`: drops leading and trailing
whitespace characters. -/
def jsTrim (s : String) : String :=
  ⟨((s.data.dropWhile jsIsWhitespace).reverse.dropWhile jsIsWhitespace).reverse⟩

/-- Models JavaScript `toUpperCase` on one character, for ASCII letters and
basic Greek letters (including final sigma); other code points unchanged. -/
def jsCharToUpper (c : Char) : Char :=
  if 97 ≤ c.toNat ∧ c.toNat ≤ 122 then Char.ofNat (c.toNat - 32)
  else if c.toNat = 0x3C2 then Char.ofNat 0x3A3
  else if 0x3B1 ≤ c.toNat ∧ c.toNat ≤ 0x3C9 then Char.ofNat (c.toNat - 32)
  else c

/-- Models JavaScript `toLowerCase` on one character, for ASCII letters and
unaccented Greek capitals; other code points unchanged. -/
def jsCharToLower (c : Char) : Char :=
  if 65 ≤ c.toNat ∧ c.toNat ≤ 90 then Char.ofNat (c.toNat + 32)
  else if 0x391 ≤ c.toNat ∧ c.toNat ≤ 0x3A9 ∧ c.toNat ≠ 0x3A2 then
    Char.ofNat (c.toNat + 32)
  else c

/-- Models JavaScript `String.prototype.toUpperCase`. -/
def jsToUpper (s : String) : String := ⟨s.data.map jsCharToUpper⟩

/-- Models JavaScript `String.prototype.toLowerCase`. -/
def jsToLower (s : String) : String := ⟨s.data.map jsCharToLower⟩

/-- Boolean test that the first list starts with the second one. -/
def startsWithL : List Char → List Char → Bool
  | _, [] => true
  | [], _ :: _ => false
  | h :: hs, n :: ns => h == n && startsWithL hs ns

/-- Boolean test that `needle` occurs contiguously inside the first list. -/
def containsL : List Char → List Char → Bool
  | [], needle => needle.isEmpty
  | h :: t, needle => startsWithL (h :: t) needle || containsL t needle

/-- Models JavaScript `String.prototype.includes`: `hay` contains `needle`
as a contiguous substring. -/
def strIncludes (hay needle : String) : Bool := containsL hay.data needle.data

/-- Character class of the regex `\d`. -/
def isDigitC (c : Char) : Bool := decide (48 ≤ c.toNat ∧ c.toNat ≤ 57)

/-- Character class of the regex `[A-Z]`. -/
def isAZ (c : Char) : Bool := decide (65 ≤ c.toNat ∧ c.toNat ≤ 90)

/-- All characters are decimal digits. -/
def allDigits (cs : List Char) : Bool := cs.all isDigitC

/-- All characters are ASCII capital letters. -/
def allAZ (cs : List Char) : Bool := cs.all isAZ

/-- The string length lies between `lo` and `hi` inclusive. -/
def lenBetween (lo hi : Nat) (s : String) : Bool :=
  decide (lo ≤ s.length ∧ s.length ≤ hi)

/-- Regex `^SE\d{9}GR$` (full-string match). -/
def reSE9GR (s : String) : Bool :=
  lenBetween 13 13 s &&
    (s.data.take 2 == ['S', 'E'] &&
      (allDigits ((s.data.drop 2).take 9) && s.data.drop 11 == ['G', 'R']))

/-- Regex `^EL\d{9}GR$` (full-string match). -/
def reEL9GR (s : String) : Bool :=
  lenBetween 13 13 s &&
    (s.data.take 2 == ['E', 'L'] &&
      (allDigits ((s.data.drop 2).take 9) && s.data.drop 11 == ['G', 'R']))

/-- Regex `^[A-Z]{2}\d{9}GR$` (full-string match). -/
def reAA9GR (s : String) : Bool :=
  lenBetween 13 13 s &&
    (allAZ (s.data.take 2) &&
      (allDigits ((s.data.drop 2).take 9) && s.data.drop 11 == ['G', 'R']))

/-- Regex `^\d{10}$` (full-string match). -/
def re10d (s : String) : Bool := lenBetween 10 10 s && allDigits s.data

/-- Regex `^SP\d{8,10}$` (full-string match). -/
def reSP8to10 (s : String) : Bool :=
  lenBetween 10 12 s && (s.data.take 2 == ['S', 'P'] && allDigits (s.data.drop 2))

/-- Regex `^\d{12}$` (full-string match). -/
def re12d (s : String) : Bool := lenBetween 12 12 s && allDigits s.data

/-- Regex `^\d{9}[A-Z]{2}$` (full-string match). -/
def re9d2A (s : String) : Bool :=
  lenBetween 11 11 s && (allDigits (s.data.take 9) && allAZ (s.data.drop 9))

/-- Regex `^BN\d{8,10}$` (full-string match). -/
def reBN8to10 (s : String) : Bool :=
  lenBetween 10 12 s && (s.data.take 2 == ['B', 'N'] && allDigits (s.data.drop 2))

/-- Regex `^CC\d{8,10}$` (full-string match). -/
def reCC8to10 (s : String) : Bool :=
  lenBetween 10 12 s && (s.data.take 2 == ['C', 'C'] && allDigits (s.data.drop 2))

/-- Regex `^[A-Z]{2}\d{9,11}$` (full-string match). -/
def reAA9to11 (s : String) : Bool :=
  lenBetween 11 13 s && (allAZ (s.data.take 2) && allDigits (s.data.drop 2))

/-- Regex `^\d{10,12}$` (full-string match). -/
def re10to12d (s : String) : Bool := lenBetween 10 12 s && allDigits s.data

/-- One entry of the `COURIERS` registry object. -/
structure Courier where
  code : String
  name : String
  apiUrl : String
  patterns : List (String → Bool)
  color : String

/-- The `COURIERS` registry, in the source object's declaration order
(the order `Object.entries` yields for its string keys). -/
def COURIERS : List Courier :=
  [⟨"elta", "ELTA Courier", "https://www.elta-courier.gr/track.php",
     [reSE9GR, reEL9GR, reAA9GR], "#1e40af"⟩,
   ⟨"acs", "ACS Courier", "https://api.acscourier.net/api/parcels/search",
     [re10d], "#dc2626"⟩,
   ⟨"speedex", "SpeedEx", "http://www.speedex.gr/speedex/NewTrackAndTrace.aspx",
     [reSP8to10, re12d, re9d2A], "#f59e0b"⟩,
   ⟨"box_now", "Box Now", "https://api-production.boxnow.gr/api/v1/parcels:track",
     [reBN8to10], "#10b981"⟩,
   ⟨"courier_center", "Courier Center", "https://courier.gr/track/result",
     [reCC8to10], "#8b5cf6"⟩,
   ⟨"geniki", "Geniki Taxydromiki", "https://www.taxydromiki.com/track",
     [reAA9to11, re10to12d], "#ec4899"⟩]

/-- Inner loop of `detectCourier`: first pattern of the list that matches. -/
def anyPatternMatches : List (String → Bool) → String → Bool
  | [], _ => false
  | p :: ps, tn => if p tn then true else anyPatternMatches ps tn

/-- Outer loop of `detectCourier` over the registry entries. -/
def detectLoop : List Courier → String → Option String
  | [], _ => none
  | c :: rest, tn =>
      if anyPatternMatches c.patterns tn then some c.code else detectLoop rest tn

/-- The `trackingNumber.trim().toUpperCase()` normalization. -/
def normalizeTracking (s : String) : String := jsToUpper (jsTrim s)

/-- Function `detectCourier` from the source: normalizes, then returns the code of the
first registry entry one of whose patterns matches, else `null`. -/
def detectCourier (trackingNumber : String) : Option String :=
  detectLoop COURIERS (normalizeTracking trackingNumber)

/-- The `STATUS_TRANSLATIONS` table, in declaration order. -/
def STATUS_TRANSLATIONS : List (String × String) :=
  [("Αποστολή παραδόθηκε", "Delivered"),
   ("Αποστολή παραδόθηκε σε", "Delivered to"),
   ("Αποστολή βρίσκεται σε στάδιο μεταφοράς", "In Transit"),
   ("Δημιουργία ΣΥ.ΔΕ.ΤΑ.", "Shipment Created"),
   ("Η ΑΠΟΣΤΟΛΗ ΠΑΡΑΔΟΘΗΚΕ", "Delivered"),
   ("delivered", "Delivered"),
   ("in-depot", "In Depot"),
   ("final-destination", "At Destination")]

/-- The loop condition of `translateStatus`:
`greek.toLowerCase() === statusLower || statusLower.includes(greek.toLowerCase())`. -/
def transEntryMatches (statusLower : String) (entry : String × String) : Bool :=
  jsToLower entry.1 == statusLower || strIncludes statusLower (jsToLower entry.1)

/-- The `for … of Object.entries(STATUS_TRANSLATIONS)` loop body of
`translateStatus`. -/
def translateLoop (statusLower : String) : List (String × String) → Option String
  | [] => none
  | entry :: rest =>
      if transEntryMatches statusLower entry then some entry.2
      else translateLoop statusLower rest

/-- Function `translateStatus` from the source: first matching table entry wins,
otherwise the input is returned unchanged. -/
def translateStatus (status : String) : String :=
  (translateLoop (jsToLower status) STATUS_TRANSLATIONS).getD status

/-- The five-valued status category enum of `TrackingResult`. -/
inductive StatusCategory
  | delivered
  | in_transit
  | created
  | unknown
  | error
deriving Repr, DecidableEq

/-- Function `getStatusCategory` from the source: case-insensitive keyword containment,
first matching bucket wins, else `unknown` (this function never yields
`error`). -/
def getStatusCategory (status : String) : StatusCategory :=
  let statusLower := jsToLower status
  if strIncludes statusLower "delivered" || strIncludes statusLower "παραδόθηκ" then
    .delivered
  else if strIncludes statusLower "transit" || strIncludes statusLower "μεταφοράς" then
    .in_transit
  else if strIncludes statusLower "created" || strIncludes statusLower "δημιουργία" then
    .created
  else .unknown

/-- The `TrackingEvent` shape: `{ date, time, place, status }`. -/
structure TrackingEvent where
  date : String
  time : String
  place : String
  status : String
deriving Repr, DecidableEq

/-- The `TrackingResult` shape.  Optional JavaScript fields (`latestEvent`,
`errorMessage`, and an `events[0]` that may be `undefined`) are `Option`s. -/
structure TrackingResult where
  success : Bool
  trackingNumber : String
  courier : String
  courierName : String
  courierColor : String
  status : String
  statusCategory : StatusCategory
  events : List TrackingEvent
  latestEvent : Option TrackingEvent
  errorMessage : Option String
deriving Repr, DecidableEq

/-- A JavaScript value caught by a fetcher's `catch` clause: an `Error`
instance carrying its `message`, or any non-`Error` thrown value. -/
inductive JsThrown
  | errObj (message : String)
  | nonError
deriving Repr, DecidableEq

/-- Models `error instanceof Error ? error.message : 'Unknown error'`. -/
def jsErrorMessage : JsThrown → String
  | .errObj m => m
  | .nonError => "Unknown error"

/-- Outcome of one `await fetch` + parse: the parsed response data, or a
thrown/rejected JavaScript value (network failure, JSON parse error, …). -/
inductive FetchOutcome (α : Type)
  | ok (data : α)
  | thrown (e : JsThrown)

/-- The per-number object of an ELTA response:
`{ status, result }` where `result` is the event array. -/
structure EltaTrackingData where
  status : Option Int
  result : Option (List TrackingEvent)

/-- A parsed ELTA response body: `{ status, result }` where `result` maps
tracking numbers to per-number data (a JSON object, modelled as an
association list). -/
structure EltaData where
  status : Option Int
  result : Option (List (String × EltaTrackingData))

/-- Lookup `data.result?.[trackingNumber]` on an ELTA response. -/
def eltaLookup (data : EltaData) (tn : String) : Option EltaTrackingData :=
  data.result.bind (fun table => List.lookup tn table)

/-- The `Not Found` (confirmed absence) result of `trackELTA`. -/
def eltaNotFound (trackingNumber : String) : TrackingResult :=
  { success := true, trackingNumber, courier := "elta",
    courierName := "ELTA Courier", courierColor := "#1e40af",
    status := "Not Found", statusCategory := .unknown, events := [],
    latestEvent := none, errorMessage := none }

/-- Function `trackELTA` from the source, with the fetch + BOM strip + `JSON.parse`
outcome passed in explicitly. -/
def trackELTA (outcome : FetchOutcome EltaData) (trackingNumber : String) :
    TrackingResult :=
  match outcome with
  | .thrown e =>
      { success := false, trackingNumber, courier := "elta",
        courierName := "ELTA Courier", courierColor := "#1e40af",
        status := "Error", statusCategory := .error, events := [],
        latestEvent := none, errorMessage := some (jsErrorMessage e) }
  | .ok data =>
      if data.status = some 1 then
        match eltaLookup data trackingNumber with
        | some trackingData =>
            if trackingData.status = some 1 then
              let events := trackingData.result.getD []
              let latestEvent := events.head?
              let translatedStatus :=
                translateStatus ((latestEvent.map TrackingEvent.status).getD "")
              { success := true, trackingNumber, courier := "elta",
                courierName := "ELTA Courier", courierColor := "#1e40af",
                status := translatedStatus,
                statusCategory := getStatusCategory translatedStatus,
                events, latestEvent, errorMessage := none }
            else eltaNotFound trackingNumber
        | none => eltaNotFound trackingNumber
      else eltaNotFound trackingNumber

/-- One raw event of a Box Now response. -/
structure BoxNowEvent where
  createTime : Option String
  locationDisplayName : Option String
  type : Option String
deriving Repr, DecidableEq

/-- One parcel of a Box Now response. -/
structure BoxNowParcel where
  events : Option (List BoxNowEvent)
  state : Option String
deriving Repr, DecidableEq

/-- A parsed Box Now response body: `{ data: parcels }`. -/
structure BoxNowData where
  data : Option (List BoxNowParcel)
deriving Repr, DecidableEq

/-- The per-event field mapping of `trackBoxNow`: `createTime` is split at
`T` into date and a time clipped to 8 characters; missing fields map to
the empty string. -/
def mapBoxNowEvent (e : BoxNowEvent) : TrackingEvent :=
  { date := (e.createTime.map (fun ct => ((ct.splitOn "T").headD ""))).getD ""
    time := (e.createTime.map (fun ct =>
      (((ct.splitOn "T")[1]?).map (fun t => t.take 8)).getD "")).getD ""
    place := e.locationDisplayName.getD ""
    status := e.type.getD "" }

/-- The `Not Found` (confirmed absence) result of `trackBoxNow`. -/
def boxNowNotFound (trackingNumber : String) : TrackingResult :=
  { success := true, trackingNumber, courier := "box_now",
    courierName := "Box Now", courierColor := "#10b981",
    status := "Not Found", statusCategory := .unknown, events := [],
    latestEvent := none, errorMessage := none }

/-- Function `trackBoxNow` from the source, with the fetch + `response.json()`
outcome passed in explicitly.  Note the status category is the ternary
`state === 'delivered' ? 'delivered' : 'in_transit'`, not a call to
`getStatusCategory`. -/
def trackBoxNow (outcome : FetchOutcome BoxNowData) (trackingNumber : String) :
    TrackingResult :=
  match outcome with
  | .thrown e =>
      { success := false, trackingNumber, courier := "box_now",
        courierName := "Box Now", courierColor := "#10b981",
        status := "Error", statusCategory := .error, events := [],
        latestEvent := none, errorMessage := some (jsErrorMessage e) }
  | .ok data =>
      match data.data.getD [] with
      | parcel :: _ =>
          let events := (parcel.events.getD []).map mapBoxNowEvent
          let state := parcel.state.getD ""
          let translatedStatus := translateStatus state
          { success := true, trackingNumber, courier := "box_now",
            courierName := "Box Now", courierColor := "#10b981",
            status := translatedStatus,
            statusCategory := if state = "delivered" then .delivered else .in_transit,
            events, latestEvent := events.head?, errorMessage := none }
      | [] => boxNowNotFound trackingNumber

/-- The outbound network, as seen by `trackShipment`: what each carrier
endpoint call for a given tracking number yields. -/
structure NetworkEnv where
  elta : String → FetchOutcome EltaData
  boxnow : String → FetchOutcome BoxNowData

/-- JavaScript `a || b` for a possibly-absent string (`undefined` and the
empty string are falsy). -/
def jsOrStr (o : Option String) (d : String) : String :=
  match o with
  | none => d
  | some s => if s = "" then d else s

/-- Function `trackShipment` from the source: detect the courier, then dispatch to
the carrier fetcher, or produce the detection-failure / not-implemented
error results. -/
def trackShipment (env : NetworkEnv) (trackingNumber : String) : TrackingResult :=
  match detectCourier trackingNumber with
  | none =>
      { success := false, trackingNumber, courier := "unknown",
        courierName := "Unknown Courier", courierColor := "#6b7280",
        status := "Error", statusCategory := .error, events := [],
        latestEvent := none,
        errorMessage := some "Could not detect courier from tracking number format" }
  | some courierCode =>
      if courierCode = "elta" then trackELTA (env.elta trackingNumber) trackingNumber
      else if courierCode = "box_now" then
        trackBoxNow (env.boxnow trackingNumber) trackingNumber
      else
        { success := false, trackingNumber, courier := courierCode,
          courierName :=
            jsOrStr ((COURIERS.find? (fun c => c.code == courierCode)).map Courier.name)
              courierCode,
          courierColor :=
            jsOrStr ((COURIERS.find? (fun c => c.code == courierCode)).map Courier.color)
              "#6b7280",
          status := "Not Implemented", statusCategory := .error, events := [],
          latestEvent := none,
          errorMessage := some ("Tracking for " ++ courierCode ++ " is not yet implemented") }

/-- The per-number body of the POST orchestrator's loop: normalize, reject
numbers shorter than 8 characters, otherwise track. -/
def trackOne (env : NetworkEnv) (trackingNumber : String) : TrackingResult :=
  let normalizedNumber := jsToUpper (jsTrim trackingNumber)
  if normalizedNumber.length < 8 then
    { success := false, trackingNumber := normalizedNumber, courier := "unknown",
      courierName := "Unknown", courierColor := "#6b7280",
      status := "Error", statusCategory := .error, events := [],
      latestEvent := none, errorMessage := some "Invalid tracking number format" }
  else trackShipment env normalizedNumber

/-- The POST orchestrator's `for` loop with its `results.push` accumulator. -/
def trackAllLoop (env : NetworkEnv) : List String → List TrackingResult → List TrackingResult
  | [], results => results
  | n :: rest, results => trackAllLoop env rest (results ++ [trackOne env n])

/-- The batch orchestrator (the POST handler's per-number processing):
one result per requested tracking number. -/
def trackAll (env : NetworkEnv) (trackingNumbers : List String) : List TrackingResult :=
  trackAllLoop env trackingNumbers []

/-- The GET handler's behavior for a provided `number` query parameter:
uppercase (no trim, no length check) and track. -/
def getTrack (env : NetworkEnv) (trackingNumber : String) : TrackingResult :=
  trackShipment env (jsToUpper trackingNumber)

/-- An arbitrary network where every call fails: used to instantiate
theorems whose conclusions are network-independent. -/
def dummyEnv : NetworkEnv :=
  ⟨fun _ => .thrown .nonError, fun _ => .thrown .nonError⟩

/-- The condition under which `trackELTA` takes its success path: the outer
response says `status === 1` and the per-number entry exists with
`status === 1`. -/
def eltaHasRecord (data : EltaData) (tn : String) : Prop :=
  data.status = some 1 ∧ ∃ td, eltaLookup data tn = some td ∧ td.status = some 1

/-- The `TrackingResult` well-formedness invariant: `latestEvent` is exactly
the head of `events` (so it is present—and equal to `events[0]`—precisely
when `events` is non-empty), and the status category is one of the five
enumerated values. -/
def resInvariant (r : TrackingResult) : Prop :=
  r.latestEvent = r.events.head? ∧
    r.statusCategory ∈
      [StatusCategory.delivered, .in_transit, .created, .unknown, .error]

theorem startsWithL_nil (s : List Char) : startsWithL s [] = true := by
  cases s <;> rfl

theorem startsWithL_trans {s k2 k1 : List Char} (h1 : startsWithL s k2 = true)
    (h2 : startsWithL k2 k1 = true) : startsWithL s k1 = true := by
  induction k1 generalizing s k2 with
  | nil => exact startsWithL_nil s
  | cons n ns ih =>
      cases k2 with
      | nil => simp [startsWithL] at h2
      | cons b bs =>
          cases s with
          | nil => simp [startsWithL] at h1
          | cons a as =>
              simp only [startsWithL, Bool.and_eq_true, beq_iff_eq] at h1 h2 ⊢
              obtain ⟨hab, h1t⟩ := h1
              obtain ⟨hbn, h2t⟩ := h2
              exact ⟨hab.trans hbn, ih h1t h2t⟩

theorem containsL_of_startsWithL {s k : List Char} (h : startsWithL s k = true) :
    containsL s k = true := by
  cases s with
  | nil =>
      cases k with
      | nil => rfl
      | cons n ns => simp [startsWithL] at h
  | cons a as => simp [containsL, h]

theorem containsL_mono {s k1 k2 : List Char} (hc : containsL s k2 = true)
    (hp : startsWithL k2 k1 = true) : containsL s k1 = true := by
  induction s with
  | nil =>
      simp only [containsL, List.isEmpty_iff] at hc
      subst hc
      cases k1 with
      | nil => rfl
      | cons n ns => simp [startsWithL] at hp
  | cons a as ih =>
      simp only [containsL, Bool.or_eq_true] at hc ⊢
      rcases hc with h | h
      · exact Or.inl (startsWithL_trans h hp)
      · exact Or.inr (ih h)

theorem translateLoop_eq (sl : String) (l : List (String × String)) :
    translateLoop sl l = (l.find? (transEntryMatches sl)).map Prod.snd := by
  induction l with
  | nil => rfl
  | cons e rest ih =>
      cases h : transEntryMatches sl e <;>
        simp [translateLoop, h, List.find?_cons, ih]

theorem transEntryMatches_subsume (sl g1 v1 g2 v2 : String)
    (hpre : startsWithL (jsToLower g2).data (jsToLower g1).data = true)
    (h : transEntryMatches sl (g2, v2) = true) :
    transEntryMatches sl (g1, v1) = true := by
  simp only [transEntryMatches, Bool.or_eq_true, beq_iff_eq] at h ⊢
  rcases h with heq | hinc
  · refine Or.inr ?_
    unfold strIncludes
    rw [← heq]
    exact containsL_of_startsWithL hpre
  · refine Or.inr ?_
    unfold strIncludes at hinc ⊢
    exact containsL_mono hinc hpre

/-- C7: `translateStatus` is total and performs a case-insensitive lookup
against the static phrase table (exact equality or containment of the
table phrase in the status text); the first matching table entry in
declaration order determines the output, and when no entry matches the
input string is returned unchanged. -/
theorem translateStatus_first_match (s : String) :
    translateStatus s =
      ((STATUS_TRANSLATIONS.find? (transEntryMatches (jsToLower s))).map
          Prod.snd).getD s := by
  unfold translateStatus
  rw [translateLoop_eq]

/-- C9: `translateStatus` never returns the string `Delivered to`: the table
entry for the phrase with the trailing `σε` is unreachable because the
earlier-declared entry, whose phrase is a prefix of it, always matches
first. -/
theorem translateStatus_never_delivered_to (s : String) :
    (translateStatus s == "Delivered to") = false := by
  have key : ∀ sl : String,
      transEntryMatches sl ("Αποστολή παραδόθηκε σε", "Delivered to") = true →
      transEntryMatches sl ("Αποστολή παραδόθηκε", "Delivered") = true := by
    intro sl h
    exact transEntryMatches_subsume sl "Αποστολή παραδόθηκε" "Delivered"
      "Αποστολή παραδόθηκε σε" "Delivered to" (by decide) h
  rw [beq_eq_false_iff_ne]
  unfold translateStatus STATUS_TRANSLATIONS
  simp only [translateLoop]
  split_ifs with h0 h1 h2 h3 h4 h5 h6 h7
  · simp only [Option.getD_some]; decide
  · exact absurd (key _ h1) h0
  · simp only [Option.getD_some]; decide
  · simp only [Option.getD_some]; decide
  · simp only [Option.getD_some]; decide
  · simp only [Option.getD_some]; decide
  · simp only [Option.getD_some]; decide
  · simp only [Option.getD_some]; decide
  · simp only [Option.getD_none]
    intro heq
    subst heq
    exact h5 (by decide)

theorem lenBetween_bounds {lo hi : Nat} {s : String} {b : Bool}
    (h : (lenBetween lo hi s && b) = true) :
    lo ≤ s.length ∧ s.length ≤ hi := by
  simp only [Bool.and_eq_true, lenBetween, decide_eq_true_eq] at h
  exact h.1

theorem anyPatternMatches_eq_any (ps : List (String → Bool)) (tn : String) :
    anyPatternMatches ps tn = ps.any (fun p => p tn) := by
  induction ps with
  | nil => rfl
  | cons p ps ih => cases h : p tn <;> simp [anyPatternMatches, h, ih]

theorem detectLoop_eq_find (cs : List Courier) (tn : String) :
    detectLoop cs tn =
      (cs.find? (fun c => c.patterns.any (fun p => p tn))).map Courier.code := by
  induction cs with
  | nil => rfl
  | cons c rest ih =>
      simp only [detectLoop, anyPatternMatches_eq_any]
      cases h : c.patterns.any (fun p => p tn) <;> simp [h, List.find?_cons, ih]

/-- C2: the detector evaluates the registry entries in declaration order and
each entry's rules in order, returning the first match across the whole
registry; consequently a string satisfying both acs's 10-digit rule and
geniki's digit-count rule resolves to acs, the earlier-registered
carrier. -/
theorem detect_first_match_order :
    (∀ tn : String,
        detectCourier tn =
          (COURIERS.find?
              (fun c => c.patterns.any (fun p => p (normalizeTracking tn)))).map
            Courier.code) ∧
    ∀ tn : String, re10d (normalizeTracking tn) = true →
      re10to12d (normalizeTracking tn) = true ∧ detectCourier tn = some "acs" := by
  constructor
  · intro tn
    unfold detectCourier
    exact detectLoop_eq_find COURIERS (normalizeTracking tn)
  · intro tn h
    have hb := lenBetween_bounds (by unfold re10d at h; exact h)
    have hd : allDigits (normalizeTracking tn).data = true := by
      unfold re10d at h
      exact ((Bool.and_eq_true _ _).mp h).2
    have f13 : ∀ b : Bool, (lenBetween 13 13 (normalizeTracking tn) && b) = false := by
      intro b
      cases hv : (lenBetween 13 13 (normalizeTracking tn) && b) with
      | false => rfl
      | true =>
          exfalso
          have := lenBetween_bounds hv
          omega
    have p1 : reSE9GR (normalizeTracking tn) = false := by
      unfold reSE9GR; exact f13 _
    have p2 : reEL9GR (normalizeTracking tn) = false := by
      unfold reEL9GR; exact f13 _
    have p3 : reAA9GR (normalizeTracking tn) = false := by
      unfold reAA9GR; exact f13 _
    constructor
    · unfold re10to12d
      rw [hd]
      simp only [lenBetween, Bool.and_true, decide_eq_true_eq]
      omega
    · unfold detectCourier
      simp [detectLoop, COURIERS, anyPatternMatches, p1, p2, p3, h]

/-- Witness for C2: the concrete 10-digit number 1234567890 satisfies both
the acs rule and the geniki rule, and detection resolves it to acs. -/
theorem detect_first_match_order_w :
    re10d (normalizeTracking "1234567890") = true ∧
      (re10to12d (normalizeTracking "1234567890") = true ∧
        detectCourier "1234567890" = some "acs") :=
  ⟨by decide, detect_first_match_order.2 "1234567890" (by decide)⟩

set_option maxRecDepth 4000 in
theorem detect_short (tn : String) (h : tn.length < 10) :
    detectLoop COURIERS tn = none := by
  have f : ∀ lo hi (b : Bool), 10 ≤ lo → (lenBetween lo hi tn && b) = false := by
    intro lo hi b hlo
    cases hv : (lenBetween lo hi tn && b) with
    | false => rfl
    | true =>
        exfalso
        have := lenBetween_bounds hv
        omega
  have p1 : reSE9GR tn = false := by unfold reSE9GR; exact f 13 13 _ (by omega)
  have p2 : reEL9GR tn = false := by unfold reEL9GR; exact f 13 13 _ (by omega)
  have p3 : reAA9GR tn = false := by unfold reAA9GR; exact f 13 13 _ (by omega)
  have p4 : re10d tn = false := by unfold re10d; exact f 10 10 _ (by omega)
  have p5 : reSP8to10 tn = false := by unfold reSP8to10; exact f 10 12 _ (by omega)
  have p6 : re12d tn = false := by unfold re12d; exact f 12 12 _ (by omega)
  have p7 : re9d2A tn = false := by unfold re9d2A; exact f 11 11 _ (by omega)
  have p8 : reBN8to10 tn = false := by unfold reBN8to10; exact f 10 12 _ (by omega)
  have p9 : reCC8to10 tn = false := by unfold reCC8to10; exact f 10 12 _ (by omega)
  have p10 : reAA9to11 tn = false := by unfold reAA9to11; exact f 11 13 _ (by omega)
  have p11 : re10to12d tn = false := by unfold re10to12d; exact f 10 12 _ (by omega)
  simp only [COURIERS, detectLoop, anyPatternMatches, p1, p2, p3, p4, p5, p6, p7,
    p8, p9, p10, p11]
  decide

theorem jsToUpper_length (s : String) : (jsToUpper s).length = s.length := by
  show (s.data.map jsCharToUpper).length = s.data.length
  exact List.length_map _ _

theorem jsTrim_length_le (s : String) : (jsTrim s).length ≤ s.length := by
  show (((s.data.dropWhile jsIsWhitespace).reverse.dropWhile jsIsWhitespace).reverse).length ≤ s.data.length
  simp only [List.length_reverse]
  calc ((s.data.dropWhile jsIsWhitespace).reverse.dropWhile jsIsWhitespace).length
      ≤ (s.data.dropWhile jsIsWhitespace).reverse.length :=
        (List.dropWhile_sublist _).length_le
    _ = (s.data.dropWhile jsIsWhitespace).length := List.length_reverse _
    _ ≤ s.data.length := (List.dropWhile_sublist _).length_le

/-- C10: the GET variant applies no minimum-length validation: any provided
number whose uppercased form is shorter than 8 characters flows into
detection, fails it (every registry rule requires at least 10
characters), and yields the detection-failure result, not the batch
orchestrator's invalid-format result. -/
theorem get_short_input_detection_failure (env : NetworkEnv) (s : String)
    (h : (jsToUpper s).length < 8) :
    getTrack env s =
      { success := false, trackingNumber := jsToUpper s, courier := "unknown",
        courierName := "Unknown Courier", courierColor := "#6b7280",
        status := "Error", statusCategory := .error, events := [],
        latestEvent := none,
        errorMessage := some "Could not detect courier from tracking number format" } := by
  have hlen : (normalizeTracking (jsToUpper s)).length < 10 := by
    have h1 := jsTrim_length_le (jsToUpper s)
    have h2 := jsToUpper_length (jsTrim (jsToUpper s))
    unfold normalizeTracking
    omega
  have hdet : detectCourier (jsToUpper s) = none := by
    unfold detectCourier
    exact detect_short _ hlen
  unfold getTrack trackShipment
  rw [hdet]

/-- Witness for C10 at the two-character input ab. -/
theorem get_short_input_detection_failure_w :
    (jsToUpper "ab").length < 8 ∧
      getTrack dummyEnv "ab" =
        { success := false, trackingNumber := jsToUpper "ab", courier := "unknown",
          courierName := "Unknown Courier", courierColor := "#6b7280",
          status := "Error", statusCategory := .error, events := [],
          latestEvent := none,
          errorMessage := some "Could not detect courier from tracking number format" } :=
  ⟨by decide, get_short_input_detection_failure dummyEnv "ab" (by decide)⟩

/-- C4: any input whose trim+uppercase normalization is shorter than 8
characters short-circuits in the orchestrator loop to the
invalid-format error result; the result is a fixed record independent
of the network environment, so no detection or network access can
influence it. -/
theorem short_input_invalid_format (env : NetworkEnv) (s : String)
    (h : (jsToUpper (jsTrim s)).length < 8) :
    trackOne env s =
      { success := false, trackingNumber := jsToUpper (jsTrim s),
        courier := "unknown", courierName := "Unknown", courierColor := "#6b7280",
        status := "Error", statusCategory := .error, events := [],
        latestEvent := none,
        errorMessage := some "Invalid tracking number format" } := by
  simp only [trackOne]
  rw [if_pos h]

/-- Witness for C4 at the two-character input AB. -/
theorem short_input_invalid_format_w :
    (jsToUpper (jsTrim "AB")).length < 8 ∧
      trackOne dummyEnv "AB" =
        { success := false, trackingNumber := jsToUpper (jsTrim "AB"),
          courier := "unknown", courierName := "Unknown", courierColor := "#6b7280",
          status := "Error", statusCategory := .error, events := [],
          latestEvent := none,
          errorMessage := some "Invalid tracking number format" } :=
  ⟨by decide, short_input_invalid_format dummyEnv "AB" (by decide)⟩

theorem trackAllLoop_eq (env : NetworkEnv) (ns : List String)
    (acc : List TrackingResult) :
    trackAllLoop env ns acc = acc ++ ns.map (trackOne env) := by
  induction ns generalizing acc with
  | nil => simp [trackAllLoop]
  | cons n rest ih => simp [trackAllLoop, ih]

/-- C3: the batch orchestrator returns exactly one result per input number,
in the same order: the output length equals the input length and the
i-th result is the tracking of the i-th input alone, so no other
number's outcome can change it. -/
theorem trackAll_one_result_per_input (env : NetworkEnv) (ns : List String) :
    (trackAll env ns).length = ns.length ∧
      ∀ i : Nat, (trackAll env ns)[i]? = (ns[i]?).map (trackOne env) := by
  have h : trackAll env ns = ns.map (trackOne env) := by
    unfold trackAll
    simpa using trackAllLoop_eq env ns []
  constructor
  · simp [h]
  · intro i
    simp [h]

/-- C1 counterexample: a Box Now response with one parcel in state
`in-depot` yields a result whose statusCategory is `in_transit`, while
the Status Normalizer classifies the result's own (translated) status as
`unknown` — so the fetcher's category is not the normalizer's
classification, and a state classifying as none of
delivered/in_transit/created does not yield `unknown`. -/
theorem boxnow_category_not_normalizer_cex :
    (trackBoxNow (.ok ⟨some [⟨none, some "in-depot"⟩]⟩) "BN12345678").statusCategory =
        StatusCategory.in_transit ∧
      getStatusCategory
          ((trackBoxNow (.ok ⟨some [⟨none, some "in-depot"⟩]⟩) "BN12345678").status) =
        StatusCategory.unknown :=
  ⟨rfl, rfl⟩

/-- C1 (amended): for every Box Now fetch whose response contains at least
one parcel, the overall status string is the translation of the first
parcel's explicit `state` field, but the statusCategory is the ternary
`state === 'delivered' ? 'delivered' : 'in_transit'` — it is `delivered`
exactly when the raw state equals `delivered` and `in_transit`
otherwise, and the Status Normalizer is not consulted for it. -/
theorem boxnow_status_from_state (d : BoxNowData) (tn : String) (p : BoxNowParcel)
    (ps : List BoxNowParcel) (h : d.data.getD [] = p :: ps) :
    (trackBoxNow (.ok d) tn).status = translateStatus (p.state.getD "") ∧
      (trackBoxNow (.ok d) tn).statusCategory =
        (if p.state.getD "" = "delivered" then StatusCategory.delivered
         else StatusCategory.in_transit) := by
  simp only [trackBoxNow]
  rw [h]
  exact ⟨rfl, rfl⟩

/-- Witness for the amended C1 at a one-parcel response in state
`delivered`. -/
theorem boxnow_status_from_state_w :
    (trackBoxNow (.ok ⟨some [⟨none, some "delivered"⟩]⟩) "BN12345678").status =
        translateStatus ((⟨none, some "delivered"⟩ : BoxNowParcel).state.getD "") ∧
      (trackBoxNow (.ok ⟨some [⟨none, some "delivered"⟩]⟩) "BN12345678").statusCategory =
        (if (⟨none, some "delivered"⟩ : BoxNowParcel).state.getD "" = "delivered"
         then StatusCategory.delivered else StatusCategory.in_transit) :=
  boxnow_status_from_state ⟨some [⟨none, some "delivered"⟩]⟩ "BN12345678"
    ⟨none, some "delivered"⟩ [] rfl

/-- C5 counterexample: a fetch that rejects with an `Error` whose `message`
is the empty string is caught and converted, but the resulting
`errorMessage` is the empty string — not a non-empty human-readable
message as the claim states. -/
theorem fetcher_empty_error_message_cex :
    (trackELTA (.thrown (.errObj "")) "SE101046219GR").success = false ∧
      (trackELTA (.thrown (.errObj "")) "SE101046219GR").statusCategory =
        StatusCategory.error ∧
      (trackELTA (.thrown (.errObj "")) "SE101046219GR").errorMessage = some "" ∧
      (trackBoxNow (.thrown (.errObj "")) "BN12345678").errorMessage = some "" :=
  ⟨rfl, rfl, rfl, rfl⟩

/-- C5 (amended): each carrier fetcher never raises: every thrown/rejected
network or parse failure is converted into a result with success=false,
statusCategory=error, empty events, and errorMessage set to the thrown
`Error`'s message — possibly empty — or to `Unknown error` for a
non-`Error` throw. -/
theorem fetcher_thrown_error_result (e : JsThrown) (tn : String) :
    (trackELTA (.thrown e) tn).success = false ∧
      (trackELTA (.thrown e) tn).statusCategory = StatusCategory.error ∧
      (trackELTA (.thrown e) tn).events = [] ∧
      (trackELTA (.thrown e) tn).errorMessage = some (jsErrorMessage e) ∧
      (trackBoxNow (.thrown e) tn).success = false ∧
      (trackBoxNow (.thrown e) tn).statusCategory = StatusCategory.error ∧
      (trackBoxNow (.thrown e) tn).events = [] ∧
      (trackBoxNow (.thrown e) tn).errorMessage = some (jsErrorMessage e) ∧
      jsErrorMessage JsThrown.nonError = "Unknown error" :=
  ⟨rfl, rfl, rfl, rfl, rfl, rfl, rfl, rfl, rfl⟩

/-- C6: when the carrier responds successfully but reports no record (ELTA:
no `status === 1` success marker for the number; Box Now: an empty
parcel list), the fetcher returns the confirmed-absence result:
success=true, status `Not Found`, statusCategory `unknown`, empty
events. -/
theorem not_found_confirmed_absence (tn : String) (de : EltaData) (db : BoxNowData) :
    (¬ eltaHasRecord de tn → trackELTA (.ok de) tn = eltaNotFound tn) ∧
      (db.data.getD [] = [] → trackBoxNow (.ok db) tn = boxNowNotFound tn) := by
  constructor
  · intro h
    by_cases h1 : de.status = some 1
    · cases hl : eltaLookup de tn with
      | none => simp only [trackELTA, hl, h1, if_true]
      | some td =>
          by_cases h2 : td.status = some 1
          · exact absurd ⟨h1, td, hl, h2⟩ h
          · simp only [trackELTA, hl, h1, h2, if_true, if_false]
    · simp only [trackELTA, h1, if_false]
  · intro h
    simp only [trackBoxNow]
    rw [h]

/-- Witness for C6: an ELTA response with outer status 0 and a Box Now
response with no parcel list. -/
theorem not_found_confirmed_absence_w :
    trackELTA (.ok ⟨some 0, none⟩) "XX123456789GR" = eltaNotFound "XX123456789GR" ∧
      trackBoxNow (.ok ⟨none⟩) "XX123456789GR" = boxNowNotFound "XX123456789GR" :=
  ⟨(not_found_confirmed_absence "XX123456789GR" ⟨some 0, none⟩ ⟨none⟩).1
      (by simp [eltaHasRecord]),
   (not_found_confirmed_absence "XX123456789GR" ⟨some 0, none⟩ ⟨none⟩).2 rfl⟩

theorem statusCategory_mem_all (c : StatusCategory) :
    c ∈ [StatusCategory.delivered, .in_transit, .created, .unknown, .error] := by
  cases c <;> simp

theorem resInvariant_trackELTA (o : FetchOutcome EltaData) (tn : String) :
    resInvariant (trackELTA o tn) := by
  cases o with
  | thrown e => exact ⟨rfl, statusCategory_mem_all _⟩
  | ok data =>
      refine ⟨?_, statusCategory_mem_all _⟩
      by_cases h1 : data.status = some 1
      · cases hl : eltaLookup data tn with
        | none =>
            simp only [trackELTA, hl, h1, if_true]
            rfl
        | some td =>
            by_cases h2 : td.status = some 1
            · simp only [trackELTA, hl, h1, h2, if_true]
            · simp only [trackELTA, hl, h1, h2, if_true, if_false]
              rfl
      · simp only [trackELTA, h1, if_false]
        rfl

theorem resInvariant_trackBoxNow (o : FetchOutcome BoxNowData) (tn : String) :
    resInvariant (trackBoxNow o tn) := by
  cases o with
  | thrown e => exact ⟨rfl, statusCategory_mem_all _⟩
  | ok data =>
      refine ⟨?_, statusCategory_mem_all _⟩
      cases hd : data.data.getD [] with
      | nil =>
          simp only [trackBoxNow, hd]
          rfl
      | cons parcel rest => simp only [trackBoxNow, hd]

theorem resInvariant_trackShipment (env : NetworkEnv) (tn : String) :
    resInvariant (trackShipment env tn) := by
  cases hd : detectCourier tn with
  | none =>
      simp only [trackShipment, hd]
      exact ⟨rfl, statusCategory_mem_all _⟩
  | some code =>
      by_cases h1 : code = "elta"
      · simp only [trackShipment, hd, h1, if_true]
        exact resInvariant_trackELTA _ _
      · by_cases h2 : code = "box_now"
        · simp only [trackShipment, hd, h2]
          exact resInvariant_trackBoxNow _ _
        · simp only [trackShipment, hd, h1, h2, if_false]
          exact ⟨rfl, statusCategory_mem_all _⟩

theorem resInvariant_trackOne (env : NetworkEnv) (tn : String) :
    resInvariant (trackOne env tn) := by
  simp only [trackOne]
  split_ifs with h
  · exact ⟨rfl, statusCategory_mem_all _⟩
  · exact resInvariant_trackShipment _ _

/-- C8: every `TrackingResult` produced by the fetchers, the dispatcher and
the orchestrator body satisfies the invariant: `latestEvent` is exactly
the head of `events` (present and equal to `events[0]` whenever `events`
is non-empty), and `statusCategory` is one of the five enumerated
values. -/
theorem tracking_result_invariant (oe : FetchOutcome EltaData)
    (ob : FetchOutcome BoxNowData) (env : NetworkEnv) (tn : String) :
    resInvariant (trackELTA oe tn) ∧ resInvariant (trackBoxNow ob tn) ∧
      resInvariant (trackShipment env tn) ∧ resInvariant (trackOne env tn) :=
  ⟨resInvariant_trackELTA oe tn, resInvariant_trackBoxNow ob tn,
   resInvariant_trackShipment env tn, resInvariant_trackOne env tn⟩
